import Mathlib

/-!
Verification of the adaptive AI invoker of the Q&A relay backend
(`app/services/ai_client.py`) and of its HTTP endpoint (`app/main.py`),
as a shallow embedding in Lean 4.

Python values that flow through the invoker are modelled by `PyVal`;
exceptions by `PyErr`.  Python builtins (`getattr`, `len`, indexing,
truthiness, `str.strip`, `str(...)`) are modelled by total/`Except`
functions that reproduce their behaviour on the shapes the code handles.
-/

set_option autoImplicit false

namespace QnA

/-- Model of a Python runtime value, as used by the invoker: strings,
integers, floats (modelled exactly as rationals), `None`, lists,
dicts with string keys (insertion-ordered association lists), and
attribute-bearing objects (`vObj tag attrs`: `tag` stands for the class
name appearing in the default `str()` representation). -/
inductive PyVal where
  | vStr : String → PyVal
  | vInt : Int → PyVal
  | vRat : ℚ → PyVal
  | vNone : PyVal
  | vList : List PyVal → PyVal
  | vDict : List (String × PyVal) → PyVal
  | vObj : String → List (String × PyVal) → PyVal

/-- Model of a Python exception, restricted to what the invoker raises or
catches.  `typeError` is what `except TypeError` catches (the
signature-mismatch signal).  `runtimeError` covers the `RuntimeError`s
raised by `ask_gemini_sync`.  `otherError` is any other exception class
(network errors, `AttributeError`, `KeyError`, ...).  `generationFailed n e`
embeds the final `RuntimeError(f"Gemini/GenAI request failed after (n)
attempts: ...") from e` raised when the retry loop is exhausted; the
chained cause `e` is the payload of the constructor. -/
inductive PyErr where
  | typeError : String → PyErr
  | runtimeError : String → PyErr
  | otherError : String → PyErr
  | generationFailed : Nat → PyErr → PyErr
deriving DecidableEq

/-- Python `str.strip()` with no argument: remove leading and trailing
whitespace.  (Defined by structural recursion over the character list so
that it evaluates inside the kernel, unlike `String.trim`.) -/
def pyTrim (s : String) : String :=
  ⟨((s.data.dropWhile Char.isWhitespace).reverse.dropWhile Char.isWhitespace).reverse⟩

namespace PyVal

/-- Python truthiness (`if x:`) on the modelled values. -/
def pyTruthy : PyVal → Bool
  | vStr s => !s.data.isEmpty
  | vInt n => n ≠ 0
  | vRat q => q ≠ 0
  | vNone => false
  | vList xs => !xs.isEmpty
  | vDict d => !d.isEmpty
  | vObj _ _ => true

/-- `getattr(v, name, None)`: only objects carry the attribute names the
invoker probes for (`output`, `candidates`, `content`, `text`); on every
other value the default `None` is returned. -/
def pyGetattr (v : PyVal) (name : String) : PyVal :=
  match v with
  | vObj _ attrs => (attrs.lookup name).getD vNone
  | _ => vNone

/-- `len(v)`: defined on strings, lists and dicts; raises `TypeError`
on unsized values. -/
def pyLen : PyVal → Except PyErr Nat
  | vStr s => .ok s.data.length
  | vList xs => .ok xs.length
  | vDict d => .ok d.length
  | _ => .error (.typeError "object has no len()")

/-- `v[0]`: first element of a list or string; `KeyError` on a dict with
string keys; `TypeError` on non-subscriptable values; `IndexError` when
empty. -/
def pyIndex0 : PyVal → Except PyErr PyVal
  | vStr s => if s.data.isEmpty then .error (.otherError "IndexError") else .ok (vStr ⟨s.data.take 1⟩)
  | vList [] => .error (.otherError "IndexError")
  | vList (x :: _) => .ok x
  | vDict _ => .error (.otherError "KeyError: 0")
  | _ => .error (.typeError "object is not subscriptable")

/-- `v.strip()`: defined on strings only; on any other value the
attribute access raises. -/
def pyStrip : PyVal → Except PyErr String
  | vStr s => .ok (pyTrim s)
  | _ => .error (.otherError "AttributeError: strip")

mutual

/-- Python `repr` of the modelled values (used by `str()` on containers);
`\x27` is the ASCII apostrophe, `\x7b`/`\x7d` are literal braces. -/
def pyRepr : PyVal → String
  | vStr s => "\x27" ++ s ++ "\x27"
  | vInt n => toString n
  | vRat q => toString q
  | vNone => "None"
  | vList xs => "[" ++ pyReprList xs ++ "]"
  | vDict d => "\x7b" ++ pyReprDict d ++ "\x7d"
  | vObj tag _ => "<" ++ tag ++ " object>"

/-- Comma-separated reprs of list elements. -/
def pyReprList : List PyVal → String
  | [] => ""
  | [x] => pyRepr x
  | x :: xs => pyRepr x ++ ", " ++ pyReprList xs

/-- Comma-separated `key: value` reprs of dict entries. -/
def pyReprDict : List (String × PyVal) → String
  | [] => ""
  | [(k, v)] => "\x27" ++ k ++ "\x27: " ++ pyRepr v
  | (k, v) :: kvs => "\x27" ++ k ++ "\x27: " ++ pyRepr v ++ ", " ++ pyReprDict kvs

end

/-- Python `str(v)`: identity on strings, `repr` otherwise. -/
def pyStr : PyVal → String
  | vStr s => s
  | v => pyRepr v

/-- `dict(base)` followed by `v[k] = x`: overwrite in place when the key
exists, append otherwise (Python dict insertion order). -/
def dictSet (d : List (String × PyVal)) (k : String) (x : PyVal) : List (String × PyVal) :=
  if (d.lookup k).isSome then d.map (fun kv => if kv.1 = k then (k, x) else kv)
  else d ++ [(k, x)]

end PyVal

open PyVal

/-!  ## `_extract_text` (ai_client.py lines 44-78)  -/

/-- The value of
`text = getattr(part, "text", None) or (part.get("text") if isinstance(part, dict) else None)`
(Python `or` returns its first operand when truthy, else its second). -/
def partText (part : PyVal) : PyVal :=
  if pyTruthy (pyGetattr part "text") then pyGetattr part "text" else
    (match part with
     | .vDict d => (d.lookup "text").getD .vNone
     | _ => .vNone)

/-- The part-handling tail shared by the first two branches of
`_extract_text`: compute `text` (see `partText`), then
`if text: return text.strip()`.  Returns `ok (some t)` when the branch
returns `t`, `ok none` when it falls through, `error` when a statement
raises (e.g. `.strip()` on a truthy non-string). -/
def textOfPart (part : PyVal) : Except PyErr (Option String) :=
  if pyTruthy (partText part) then (pyStrip (partText part)).map some
  else .ok none

/-- One structured branch of `_extract_text` (the `output` branch, lines
45-55, and the `candidates` branch, lines 57-68, which differ only in the
attribute name): `attr` list → first element → `content` → first element
→ text of part.  `ok (some t)` models `return t`, `ok none` models the
body completing without returning, `error` models a raised exception
(about to be swallowed by the surrounding `except Exception: pass`). -/
def branchRaw (resp : PyVal) (attr : String) : Except PyErr (Option String) :=
  if pyTruthy (pyGetattr resp attr) then
    match pyLen (pyGetattr resp attr) with
    | .error e => .error e
    | .ok n =>
      if 0 < n then
        match pyIndex0 (pyGetattr resp attr) with
        | .error e => .error e
        | .ok first =>
          if pyTruthy (pyGetattr first "content") then
            match pyLen (pyGetattr first "content") with
            | .error e => .error e
            | .ok m =>
              if 0 < m then
                match pyIndex0 (pyGetattr first "content") with
                | .error e => .error e
                | .ok part => textOfPart part
              else .ok none
          else .ok none
      else .ok none
  else .ok none

/-- The `text`-attribute branch of `_extract_text` (lines 71-76):
`t = getattr(resp, "text", None); if t: return t.strip()`. -/
def branchTextRaw (resp : PyVal) : Except PyErr (Option String) :=
  if pyTruthy (pyGetattr resp "text") then (pyStrip (pyGetattr resp "text")).map some
  else .ok none

/-- The text a structured branch of `_extract_text` would return, with
both the fall-through and a swallowed exception collapsed to `none`
(that is, the branch seen from after its `except Exception: pass`). -/
def branchRes (resp : PyVal) (attr : String) : Option String :=
  match branchRaw resp attr with
  | .ok (some t) => some t
  | _ => none

/-- Likewise for the `text`-attribute branch. -/
def textAttrRes (resp : PyVal) : Option String :=
  match branchTextRaw resp with
  | .ok (some t) => some t
  | _ => none

/-- `_extract_text(resp)`.  Each structured branch runs under
`try ... except Exception: pass`, so both a raised exception and a
fall-through (`ok none`) move to the next branch; the last resort is
`return str(resp)`.  The result type still admits `error` so that
non-propagation of exceptions is a provable property, not a typing
accident. -/
def extract_text (resp : PyVal) : Except PyErr String :=
  match branchRaw resp "output" with
  | .ok (some t) => .ok t
  | _ =>
    match branchRaw resp "candidates" with
    | .ok (some t) => .ok t
    | _ =>
      match branchTextRaw resp with
      | .ok (some t) => .ok t
      | _ => .ok (pyStr resp)

/-!  ## `_call_with_signature` (ai_client.py lines 80-122)  -/

/-- A keyword-argument payload, insertion-ordered as a Python dict. -/
abbrev Payload := List (String × PyVal)

/-- The result of `inspect.signature(func)` when it succeeds: the declared
parameter names (`sig.parameters`) and whether any parameter is
`VAR_KEYWORD` (`**kwargs`). -/
structure Sig where
  params : List String
  varkw : Bool

/-- A callable provider method: its introspected signature (`none` when
`inspect.signature` raised, lines 83-86) and its behaviour when invoked
with keyword arguments.  An outcome `.error (.typeError _)` is the
signature-mismatch signal; any other error is a genuine failure. -/
structure Func where
  sig : Option Sig
  behavior : Payload → Except PyErr PyVal

/-- The keyword arguments `_call_with_signature` actually passes for one
candidate (lines 91-109), or `none` when the candidate is skipped:
with a signature, a candidate whose keys are all unaccepted and with no
`**kwargs` wildcard is skipped; with a wildcard the full payload is
passed; otherwise the payload is filtered to the accepted keys.  Without
a signature the full payload is passed. -/
def callKwargs (func : Func) (kwargs : Payload) : Option Payload :=
  match func.sig with
  | none => some kwargs
  | some s =>
    let accepted := kwargs.filter (fun kv => s.params.contains kv.1)
    if accepted.isEmpty && !s.varkw then none
    else if s.varkw then some kwargs
    else some accepted

/-- `_call_with_signature(func, payload_variants)`: try each candidate in
order; a `TypeError` from the call is caught and the next candidate is
tried; any other exception is re-raised; when the loop completes,
`TypeError("All payload variants failed. ...")` is raised (the attempts
trace interpolated into the real message is not modelled).  The first
component is the list of keyword-argument sets actually passed to the
callable, in order (instrumentation standing in for the provider's
call log). -/
def cws_run (func : Func) : List (String × Payload) → List Payload × Except PyErr PyVal
  | [] => ([], .error (.typeError "All payload variants failed."))
  | (_, kwargs) :: rest =>
    match callKwargs func kwargs with
    | none => cws_run func rest
    | some ck =>
      match func.behavior ck with
      | .ok resp => ([ck], .ok resp)
      | .error (.typeError _) =>
        let r := cws_run func rest
        (ck :: r.1, r.2)
      | .error e => ([ck], .error e)

/-!  ## Payload construction inside `ask_gemini_sync` (lines 182-216)  -/

/-- The two-message exchange used by the chat path and the `messages`
payload candidate (lines 145-148 and 182-183). -/
def messagesVariant (question : String) : PyVal :=
  .vList [.vDict [("role", .vStr "system"), ("content", .vStr "You are a concise helpful assistant.")],
          .vDict [("role", .vStr "user"), ("content", .vStr question)]]

/-- The keyword arguments of the chat-completion call (lines 143-151 and
227-235): `model`, `messages`, `temperature`, `max_output_tokens`. -/
def chatPayload (model question : String) (temperature : ℚ) (maxOutputTokens : Int) : Payload :=
  [("model", .vStr model), ("messages", messagesVariant question),
   ("temperature", .vRat temperature), ("max_output_tokens", .vInt maxOutputTokens)]

/-- `payload_variants` (lines 184-189), in dict insertion order. -/
def payloadVariants (question model : String) : List (String × Payload) :=
  [("messages", [("messages", messagesVariant question), ("model", .vStr model)]),
   ("contents", [("contents", .vList [.vStr question]), ("model", .vStr model)]),
   ("input", [("input", .vStr question), ("model", .vStr model)]),
   ("prompt", [("prompt", .vStr question), ("model", .vStr model)])]

/-- `token_param_names` (line 192). -/
def tokenParamNames : List String := ["max_output_tokens", "max_tokens", "max_tokens_to_sample"]

/-- `temp_param_names` (line 193). -/
def tempParamNames : List String := ["temperature", "temp"]

/-- `augmented_variants` (lines 203-212): for each base candidate and each
alias in `token_param_names + temp_param_names`, one copy of the base
payload with that single extra key set to the token limit (for a token
alias) or to the temperature (for a temperature alias), keyed
`f"(name)+(alias)"`. -/
def augmentedVariants (base : List (String × Payload)) (maxOutputTokens : Int)
    (temperature : ℚ) : List (String × Payload) :=
  base.flatMap (fun nb =>
    (tokenParamNames ++ tempParamNames).map (fun tk =>
      (nb.1 ++ "+" ++ tk,
       dictSet nb.2 tk (if tokenParamNames.contains tk then .vInt maxOutputTokens
                        else .vRat temperature))))

/-!  ## Provider clients and module state (ai_client.py lines 14-42)  -/

/-- A new-style `genai.Client` as observed by the invoker:
`chatCreate` is `chat.completions.create` when the `chat` attribute chain
of lines 140-141 is present; `models` is the `models` attribute (a
name-indexed lookup of callables, `some f` meaning the attribute exists
and is callable); `clientFuncs` are callables found directly on the
client (the fallback of lines 170-175). -/
structure Client where
  chatCreate : Option (Payload → Except PyErr PyVal)
  models : Option (String → Option Func)
  clientFuncs : String → Option Func

/-- An old-style `google.generativeai` module as observed by the invoker:
`chatCreate` is `ChatCompletion.create` when present (line 226);
`generateText` is `generate_text` when present (line 237). -/
structure OldClient where
  chatCreate : Option (Payload → Except PyErr PyVal)
  generateText : Option (Payload → Except PyErr PyVal)

/-- The module-level capability state set up at import time:
`_has_new_genai`, `_client`, `_has_old_genai`, `_old_genai`. -/
structure Env where
  hasNew : Bool
  client : Option Client
  hasOld : Bool
  oldClient : Option OldClient

/-- `candidate_names` (line 159). -/
def candidateNames : List String := ["generate_content", "generate", "create", "call", "generate_text"]

/-- First present-and-callable name in a lookup (the loops at lines
162-168 and 171-175). -/
def firstFunc (lookup : String → Option Func) : List String → Option Func
  | [] => none
  | n :: ns =>
    match lookup n with
    | some f => some f
    | none => firstFunc lookup ns

/-- Generation-method discovery (lines 159-175): first matching candidate
name on `client.models`, else `generate_text`/`generate` directly on the
client. -/
def findFunc (c : Client) (models : String → Option Func) : Option Func :=
  match firstFunc models candidateNames with
  | some f => some f
  | none => firstFunc c.clientFuncs ["generate_text", "generate"]

/-!  ## One attempt of the retry loop (ai_client.py lines 136-245)  -/

/-- The result of the `result = func(...); return _extract_text(result)`
sequence: provider errors and (never-occurring, see `extract_text_total`
below) extraction errors propagate alike. -/
def callAndExtract (f : Payload → Except PyErr PyVal) (p : Payload) : Except PyErr String :=
  (f p).bind extract_text

/-- One iteration of the body of the retry loop of `ask_gemini_sync`
(lines 136-245): the new-SDK path when `_has_new_genai and _client is not
None` (chat-completion shortcut, method discovery, base payload
negotiation, augmented payload negotiation on a `TypeError`), otherwise
the old-SDK path, otherwise `RuntimeError("No compatible Google GenAI SDK
available")`.  The inner `except Exception: ...; raise` handlers of lines
218-220 and 241-243 only log and re-raise, so they are transparent here.
The second component counts the provider invocations made. -/
def attemptOnce (env : Env) (question model : String) (maxOutputTokens : Int)
    (temperature : ℚ) : Except PyErr String × Nat :=
  match env.hasNew, env.client with
  | true, some c =>
    match c.chatCreate with
    | some create => (callAndExtract create (chatPayload model question temperature maxOutputTokens), 1)
    | none =>
      match c.models with
      | none => (.error (.runtimeError "genai.Client has no .models attribute"), 0)
      | some models =>
        match findFunc c models with
        | none => (.error (.runtimeError "No suitable generate function found on genai client.models or client"), 0)
        | some func =>
          let base := payloadVariants question model
          let r1 := cws_run func base
          match r1.2 with
          | .ok resp => (extract_text resp, r1.1.length)
          | .error (.typeError _) =>
            let r2 := cws_run func (augmentedVariants base maxOutputTokens temperature)
            match r2.2 with
            | .ok resp => (extract_text resp, r1.1.length + r2.1.length)
            | .error e => (.error e, r1.1.length + r2.1.length)
          | .error e => (.error e, r1.1.length)
  | _, _ =>
    match env.hasOld, env.oldClient with
    | true, some oc =>
      match oc.chatCreate with
      | some create => (callAndExtract create (chatPayload model question temperature maxOutputTokens), 1)
      | none =>
        match oc.generateText with
        | some g => (callAndExtract g [("model", .vStr model), ("prompt", .vStr question),
                                       ("max_output_tokens", .vInt maxOutputTokens)], 1)
        | none => (.error (.runtimeError "No compatible function on older SDK"), 0)
    | _, _ => (.error (.runtimeError "No compatible Google GenAI SDK available"), 0)

/-!  ## The retry loop and `ask_gemini_sync` (lines 124-257)  -/

/-- Observable outcome of a full `ask_gemini_sync` run: the returned
string or raised error, the number of provider invocations, the
`time.sleep` durations in order, and the number of loop iterations
(attempts) executed. -/
instance {ε α : Type} [DecidableEq ε] [DecidableEq α] : DecidableEq (Except ε α) :=
  fun a b =>
    match a, b with
    | .ok x, .ok y => decidable_of_iff (x = y) (by simp)
    | .error e, .error f => decidable_of_iff (e = f) (by simp)
    | .ok _, .error _ => isFalse (by simp)
    | .error _, .ok _ => isFalse (by simp)

structure RunResult where
  result : Except PyErr String
  calls : Nat
  sleeps : List ℚ
  attempts : Nat
deriving DecidableEq

/-- The retry loop `for attempt in range(retries + 1)` (lines 135-255)
from iteration `attempt` on.  A successful attempt returns; a failed
attempt with `attempt < retries` sleeps `backoff * 2 ** attempt` and
continues; the final failure raises
`RuntimeError(f"Gemini/GenAI request failed after (retries+1) attempts:
...") from e`, modelled as `.generationFailed (retries+1) e`. -/
def askLoop (env : Env) (question model : String) (maxOutputTokens : Int) (temperature : ℚ)
    (retries : Nat) (backoff : ℚ) (attempt : Nat) : RunResult :=
  let a := attemptOnce env question model maxOutputTokens temperature
  match a.1 with
  | .ok s => ⟨.ok s, a.2, [], 1⟩
  | .error e =>
    if h : attempt < retries then
      let rest := askLoop env question model maxOutputTokens temperature retries backoff (attempt + 1)
      ⟨rest.result, a.2 + rest.calls, backoff * 2 ^ attempt :: rest.sleeps, 1 + rest.attempts⟩
    else
      ⟨.error (.generationFailed (retries + 1) e), a.2, [], 1⟩
termination_by retries + 1 - attempt
decreasing_by omega

/-- `DEFAULT_MODEL` (line 10) with `GEMINI_MODEL` unset. -/
def DEFAULT_MODEL : String := "gemini-2.5-flash"

/-- `ask_gemini_sync(question, model, max_output_tokens, temperature,
retries, backoff)` (lines 124-257): return `""` immediately when the
question is empty or whitespace-only (line 131), else run the retry
loop from attempt 0. -/
def ask_gemini_sync (env : Env) (question : String) (model : String := DEFAULT_MODEL)
    (maxOutputTokens : Int := 512) (temperature : ℚ := 1/5) (retries : Nat := 2)
    (backoff : ℚ := 1) : RunResult :=
  if question.data.isEmpty || (pyTrim question).data.isEmpty then ⟨.ok "", 0, [], 0⟩
  else askLoop env question model maxOutputTokens temperature retries backoff 0

/-!  ## Module initialization (ai_client.py lines 14-42)  -/

/-- Outcome of importing `app.services.ai_client`. -/
inductive InitResult where
  | newSDK : Client → InitResult
  | oldSDK : OldClient → InitResult
  | importError : InitResult
deriving Nonempty

/-- Module initialization (lines 14-42): construction of a new-style
`genai.Client` is attempted first (`some c` abstracts the whole
lines-20-27 block succeeding with client `c`, including the
with-key/without-key fallback); only when it fails is the old-style
`google.generativeai` module tried (`some o` abstracts lines 31-37
succeeding); when both fail, line 42 raises
`ImportError("No Google GenAI SDK found. ...")` and the module does not
load. -/
def moduleInit : Option Client → Option OldClient → InitResult
  | some c, _ => .newSDK c
  | none, some o => .oldSDK o
  | none, none => .importError

/-- The module state `ask_gemini_sync` sees for each import outcome
(`none`: the import raised, the function does not exist). -/
def envOfInit : InitResult → Option Env
  | .newSDK c => some ⟨true, some c, false, none⟩
  | .oldSDK o => some ⟨false, none, true, some o⟩
  | .importError => none

/-!  ## The `POST /ask` endpoint (main.py lines 111-138)  -/

/-- HTTP-level outcome of `POST /ask`: a JSON body
`AskResponse(answer=..., source=...)` or a raised `HTTPException`. -/
inductive AskResp where
  | ok : String → String → AskResp
  | httpError : Nat → String → AskResp
deriving DecidableEq

/-- Instrumented outcome of one `POST /ask` request: the response, the
number of provider invocations, and the outcome of the storage save
(`none` when the save was skipped because `save_qa`/`db` are absent). -/
structure AskEndpointResult where
  response : AskResp
  providerCalls : Nat
  saveResult : Option (Except PyErr Int)
deriving DecidableEq

/-- `POST /ask` (main.py lines 111-138): trim the question, 400 when the
trimmed question is empty, call `ask_gemini_sync(q)` with its default
arguments on a worker thread, 502 on any exception from it, then attempt
`save_qa(q, answer)` when the storage collaborator is configured —
swallowing any save failure (lines 128-135 log and continue) — and
return `{answer, source: "gemini"}`.  `hasSave` models `save_qa and db`
both being present; `save` models `save_qa`. -/
def askEndpoint (env : Env) (hasSave : Bool) (save : String → String → Except PyErr Int)
    (question : String) : AskEndpointResult :=
  let q := pyTrim question
  if q.data.isEmpty then ⟨.httpError 400 "Question is required", 0, none⟩
  else
    let run := ask_gemini_sync env q
    match run.result with
    | .error _ => ⟨.httpError 502 "AI service error", run.calls, none⟩
    | .ok answer =>
      let saved := if hasSave then some (save q answer) else none
      ⟨.ok answer "gemini", run.calls, saved⟩

/-!  ## Test stubs (concrete providers used to instantiate the theorems)  -/

/-- A provider stub for the spec's augmentation scenario: declared
parameters `contents`, `model`, `max_output_tokens`, no wildcard; the
call raises a signature mismatch unless both `contents` and
`max_output_tokens` are among the passed keys, in which case it returns
a response carrying the text `"ok!"`. -/
def stubTokenFunc : Func :=
  ⟨some ⟨["contents", "model", "max_output_tokens"], false⟩,
   fun kwargs =>
     if (kwargs.lookup "contents").isSome && (kwargs.lookup "max_output_tokens").isSome then
       .ok (.vObj "Resp" [("text", .vStr "ok!")])
     else .error (.typeError "unexpected keyword argument")⟩

/-- A `models` namespace exposing `generate_content` bound to
`stubTokenFunc`. -/
def stubTokenModels : String → Option Func :=
  fun n => if n = "generate_content" then some stubTokenFunc else none

/-!  ## Lemmas about `_extract_text`  -/

theorem pyStrip_ok (v : PyVal) (t : String) (h : pyStrip v = .ok t) :
    ∃ s, t = pyTrim s := by
  cases v <;> simp [pyStrip] at h
  case vStr s => exact ⟨s, h.symm⟩

theorem textOfPart_trim (part : PyVal) (t : String)
    (h : textOfPart part = .ok (some t)) : ∃ s, t = pyTrim s := by
  unfold textOfPart at h
  split at h
  · rcases hps : pyStrip (partText part) with e | u
    · rw [hps] at h; simp [Except.map] at h
    · rw [hps] at h
      simp [Except.map] at h
      subst h
      exact pyStrip_ok _ _ hps
  · simp at h

theorem branchRaw_trim (resp : PyVal) (attr : String) (t : String)
    (h : branchRaw resp attr = .ok (some t)) : ∃ s, t = pyTrim s := by
  unfold branchRaw at h
  repeat' split at h
  any_goals exact textOfPart_trim _ _ h
  all_goals simp at h

theorem extract_text_of_output (resp : PyVal) (t : String)
    (h : branchRes resp "output" = some t) : extract_text resp = .ok t := by
  unfold branchRes at h
  split at h
  · cases h
    unfold extract_text
    split
    · rename_i heq'
      simp_all
    · simp_all
  · cases h

theorem extract_text_of_candidates (resp : PyVal) (t : String)
    (h0 : branchRes resp "output" = none)
    (h : branchRes resp "candidates" = some t) : extract_text resp = .ok t := by
  unfold branchRes at h0 h
  split at h
  · cases h
    unfold extract_text
    split
    · rename_i heq'
      rw [heq'] at h0
      cases h0
    · split
      · simp_all
      · simp_all
  · cases h

theorem extract_text_of_textattr (resp : PyVal) (t : String)
    (h0 : branchRes resp "output" = none)
    (h1 : branchRes resp "candidates" = none)
    (h : textAttrRes resp = some t) : extract_text resp = .ok t := by
  unfold branchRes at h0 h1
  unfold textAttrRes at h
  split at h
  · cases h
    unfold extract_text
    split
    · rename_i heq'
      rw [heq'] at h0
      cases h0
    · split
      · rename_i heq'
        rw [heq'] at h1
        cases h1
      · split
        · simp_all
        · simp_all
  · cases h

theorem extract_text_fallback (resp : PyVal)
    (h0 : branchRes resp "output" = none)
    (h1 : branchRes resp "candidates" = none)
    (h2 : textAttrRes resp = none) : extract_text resp = .ok (pyStr resp) := by
  unfold branchRes at h0 h1
  unfold textAttrRes at h2
  unfold extract_text
  split
  · rename_i heq'
    rw [heq'] at h0
    cases h0
  · split
    · rename_i heq'
      rw [heq'] at h1
      cases h1
    · split
      · rename_i heq'
        rw [heq'] at h2
        cases h2
      · rfl

theorem pyStr_vObj_ne_empty (tag : String) (attrs : List (String × PyVal)) :
    pyStr (.vObj tag attrs) ≠ "" := by
  intro h
  have h2 : (pyStr (.vObj tag attrs)).data = ("" : String).data := by rw [h]
  simp [pyStr, pyRepr, String.data_append] at h2

theorem pyStr_vDict_ne_empty (d : List (String × PyVal)) :
    pyStr (.vDict d) ≠ "" := by
  intro h
  have h2 : (pyStr (.vDict d)).data = ("" : String).data := by rw [h]
  simp [pyStr, pyRepr, String.data_append] at h2

/-!  ## Claim theorems: response normalization  -/

/-- C10: `_extract_text` is total: on every input it returns a string and
never propagates an exception — each structured-extraction branch is
guarded (a raised error, like a fall-through, just moves to the next
branch) and the final branch unconditionally falls back to `str(resp)`. -/
theorem extract_text_total (resp : PyVal) : ∃ s, extract_text resp = .ok s := by
  unfold extract_text
  split
  · exact ⟨_, rfl⟩
  · split
    · exact ⟨_, rfl⟩
    · split
      · exact ⟨_, rfl⟩
      · exact ⟨_, rfl⟩

/-- C3 as stated is false at the empty-string response: no extraction
path matches it, so the whole response is coerced to its string
representation, and that string form is empty — not non-empty. -/
theorem extract_text_fallback_empty_cex :
    extract_text (.vStr "") = .ok "" ∧
    branchRes (.vStr "") "output" = none ∧
    branchRes (.vStr "") "candidates" = none ∧
    textAttrRes (.vStr "") = none ∧
    ("" : String).data.isEmpty = true := by decide

/-- C3 (amended): `_extract_text` tries the extraction paths in the fixed
order (a) `output`-list / first element / `content` / first element /
`text`, (b) the analogous `candidates` path, (c) a top-level `text`
attribute; the first matching path's text is returned trimmed; if no
path matches, the whole response is coerced to its string
representation.  That string form is non-empty for object- and
dict-shaped responses, though not for every unrecognized value (an
empty-string response stringifies to the empty string). -/
theorem extract_text_path_order (resp : PyVal) :
    (∀ t, branchRes resp "output" = some t → extract_text resp = .ok t)
  ∧ (branchRes resp "output" = none →
      ∀ t, branchRes resp "candidates" = some t → extract_text resp = .ok t)
  ∧ (branchRes resp "output" = none → branchRes resp "candidates" = none →
      ∀ t, textAttrRes resp = some t → extract_text resp = .ok t)
  ∧ (branchRes resp "output" = none → branchRes resp "candidates" = none →
      textAttrRes resp = none → extract_text resp = .ok (pyStr resp))
  ∧ (∀ attr t, branchRes resp attr = some t → ∃ s, t = pyTrim s)
  ∧ (∀ t, textAttrRes resp = some t → ∃ s, t = pyTrim s)
  ∧ (∀ tag attrs, resp = .vObj tag attrs → pyStr resp ≠ "")
  ∧ (∀ d, resp = .vDict d → pyStr resp ≠ "") := by
  refine ⟨fun t h => extract_text_of_output resp t h,
          fun h0 t h => extract_text_of_candidates resp t h0 h,
          fun h0 h1 t h => extract_text_of_textattr resp t h0 h1 h,
          fun h0 h1 h2 => extract_text_fallback resp h0 h1 h2,
          fun attr t h => ?_, fun t h => ?_,
          fun tag attrs h => h ▸ pyStr_vObj_ne_empty tag attrs,
          fun d h => h ▸ pyStr_vDict_ne_empty d⟩
  · unfold branchRes at h
    split at h
    · cases h
      rename_i heq
      exact branchRaw_trim _ _ _ heq
    · cases h
  · unfold textAttrRes at h
    split at h
    · cases h
      rename_i heq
      unfold branchTextRaw at heq
      split at heq
      · rcases hps : pyStrip (pyGetattr resp "text") with e | u
        · rw [hps] at heq; simp [Except.map] at heq
        · rw [hps] at heq
          simp [Except.map] at heq
          subst heq
          exact pyStrip_ok _ _ hps
      · simp at heq
    · cases h

/-- Witness for C3 (amended) at the spec's own test vectors: the
`output`-path response extracts to the trimmed `"hi"`, via the first
conjunct of the path-order theorem. -/
theorem extract_text_path_order_witness :
    extract_text (.vObj "R" [("output", .vList
      [.vObj "O" [("content", .vList [.vDict [("text", .vStr " hi ")]])]])]) = .ok "hi" :=
  (extract_text_path_order _).1 "hi" (by decide)

/-- C2: for every question whose trimmed form is empty (including the
empty string itself), `ask_gemini_sync` returns the empty string
immediately: no error, no provider call, no retry, no sleep. -/
theorem ask_gemini_sync_blank_question (env : Env) (question model : String)
    (maxOutputTokens : Int) (temperature : ℚ) (retries : Nat) (backoff : ℚ)
    (h : (pyTrim question).data.isEmpty = true) :
    ask_gemini_sync env question model maxOutputTokens temperature retries backoff =
      ⟨.ok "", 0, [], 0⟩ := by
  unfold ask_gemini_sync
  rw [h]
  simp

/-- Witness for C2 at a whitespace-only question. -/
theorem ask_gemini_sync_blank_question_witness :
    ask_gemini_sync ⟨false, none, false, none⟩ "   " DEFAULT_MODEL 512 (1/5) 2 1 =
      ⟨.ok "", 0, [], 0⟩ :=
  ask_gemini_sync_blank_question _ _ _ _ _ _ _ (by decide)

/-!  ## The retry loop  -/

/-- When the attempt body always fails with the same error (it is a
function of the static module state only), the loop from iteration
`attempt` with `retries = attempt + k` runs `k + 1` further attempts,
sleeps `backoff * 2 ^ i` after each failed attempt `i < retries`, and
ends in the wrapping `RuntimeError ... from e`. -/
theorem askLoop_all_fail (env : Env) (q m : String) (tok : Int) (temp : ℚ)
    (retries : Nat) (backoff : ℚ) (e : PyErr) (c : Nat)
    (hfail : attemptOnce env q m tok temp = (.error e, c)) :
    ∀ k attempt, retries = attempt + k →
      askLoop env q m tok temp retries backoff attempt =
        ⟨.error (.generationFailed (retries + 1) e), (k + 1) * c,
         (List.range k).map (fun i => backoff * 2 ^ (attempt + i)), k + 1⟩ := by
  intro k
  induction k with
  | zero =>
    intro attempt hr
    rw [askLoop, hfail]
    simp only []
    rw [dif_neg (by omega)]
    simp
  | succ k ih =>
    intro attempt hr
    rw [askLoop, hfail]
    simp only []
    rw [dif_pos (by omega)]
    rw [ih (attempt + 1) (by omega)]
    simp only [RunResult.mk.injEq]
    refine ⟨trivial, by ring, ?_, by ring⟩
    rw [List.range_succ_eq_map, List.map_cons, List.map_map]
    refine congrArg₂ _ (by rw [Nat.add_zero]) ?_
    refine List.map_congr_left fun i _ => ?_
    simp only [Function.comp]
    rw [Nat.succ_eq_add_one]
    ring

theorem pyTrim_of_empty (s : String) (h : s.data.isEmpty = true) :
    (pyTrim s).data.isEmpty = true := by
  cases s with
  | mk l =>
    cases l with
    | nil => rfl
    | cons a l => simp at h

/-- A successful attempt returns at once: one attempt, no sleep. -/
theorem askLoop_first_ok (env : Env) (q m : String) (tok : Int) (temp : ℚ)
    (retries : Nat) (backoff : ℚ) (attempt : Nat) (s : String) (c : Nat)
    (h : attemptOnce env q m tok temp = (.ok s, c)) :
    askLoop env q m tok temp retries backoff attempt = ⟨.ok s, c, [], 1⟩ := by
  rw [askLoop, h]

/-- A non-blank question whose first attempt succeeds yields the
attempt's answer with one attempt, no sleep. -/
theorem ask_gemini_sync_first_ok (env : Env) (question model : String) (tok : Int)
    (temp : ℚ) (retries : Nat) (backoff : ℚ) (s : String) (c : Nat)
    (hq : (pyTrim question).data.isEmpty = false)
    (h : attemptOnce env question model tok temp = (.ok s, c)) :
    ask_gemini_sync env question model tok temp retries backoff = ⟨.ok s, c, [], 1⟩ := by
  have hq0 : question.data.isEmpty = false := by
    cases hqe : question.data.isEmpty
    · rfl
    · rw [pyTrim_of_empty question hqe] at hq
      cases hq
  unfold ask_gemini_sync
  rw [hq0, hq]
  simp only [Bool.or_self, Bool.false_eq_true, if_false]
  exact askLoop_first_ok env question model tok temp retries backoff 0 s c h

/-- C1: for every non-blank question, when every attempt of the
discovery+call+normalize sequence raises, `ask_gemini_sync` makes exactly
`retries + 1` attempts, sleeps `backoff * 2 ^ attemptIndex` seconds
between consecutive failed attempts (no jitter, no cap), and finally
fails with the `RuntimeError(...) from e` carrying the last underlying
cause. -/
theorem ask_gemini_sync_retry_exhaustion (env : Env) (question model : String)
    (maxOutputTokens : Int) (temperature : ℚ) (retries : Nat) (backoff : ℚ)
    (e : PyErr) (c : Nat)
    (hq : (pyTrim question).data.isEmpty = false)
    (hfail : attemptOnce env question model maxOutputTokens temperature = (.error e, c)) :
    ask_gemini_sync env question model maxOutputTokens temperature retries backoff =
      ⟨.error (.generationFailed (retries + 1) e), (retries + 1) * c,
       (List.range retries).map (fun i => backoff * 2 ^ i), retries + 1⟩ := by
  unfold ask_gemini_sync
  have hq0 : question.data.isEmpty = false := by
    cases hqe : question.data.isEmpty
    · rfl
    · rw [pyTrim_of_empty question hqe] at hq
      cases hq
  rw [hq0, hq]
  simp only [Bool.or_self, Bool.false_eq_true, if_false]
  have h := askLoop_all_fail env question model maxOutputTokens temperature retries backoff
      e c hfail retries 0 (by omega)
  simpa using h

/-- Witness for C1, the spec's own scenario: a provider stub whose
generation method raises a non-signature exception on every call; with
`retries = 2` and `backoff = 1` the invoker makes 3 attempts, sleeps 1s
then 2s, and fails with the wrapping error carrying the cause. -/
theorem ask_gemini_sync_retry_exhaustion_witness :
    ask_gemini_sync
      ⟨true, some ⟨none, some (fun n => if n = "generate_content" then
          some ⟨none, fun _ => .error (.otherError "boom")⟩ else none), fun _ => none⟩,
       false, none⟩
      "hi" DEFAULT_MODEL 512 (1/5) 2 1 =
      ⟨.error (.generationFailed 3 (.otherError "boom")), 3, [1, 2], 3⟩ := by
  have h := ask_gemini_sync_retry_exhaustion
      ⟨true, some ⟨none, some (fun n => if n = "generate_content" then
          some ⟨none, fun _ => .error (.otherError "boom")⟩ else none), fun _ => none⟩,
       false, none⟩
      "hi" DEFAULT_MODEL 512 (1/5) 2 1 (.otherError "boom") 1 (by decide) (by decide)
  refine h.trans ?_
  simp only [RunResult.mk.injEq]
  refine ⟨trivial, trivial, ?_, trivial⟩
  norm_num [List.range_succ]

/-!  ## Claim theorems: call-shape negotiation  -/

/-- C4: with an introspectable signature, a candidate payload is passed
in full to the method only when the declared parameters accept every one
of its keys or a `**kwargs` wildcard is present; and a candidate with no
accepted keys and no wildcard is skipped without any call (the run over
the remaining candidates is unchanged).  (When only some keys are
accepted the code still calls the method, but with the payload filtered
down to the accepted keys, not with that payload.) -/
theorem call_with_signature_acceptance (func : Func) (s : Sig) (h : func.sig = some s)
    (name : String) (kwargs : Payload) (rest : List (String × Payload)) :
    (callKwargs func kwargs = some kwargs →
      s.varkw = true ∨ ∀ kv ∈ kwargs, s.params.contains kv.1 = true)
  ∧ ((kwargs.filter (fun kv => s.params.contains kv.1)).isEmpty = true → s.varkw = false →
      cws_run func ((name, kwargs) :: rest) = cws_run func rest) := by
  constructor
  · intro hck
    simp only [callKwargs, h] at hck
    split at hck
    · simp at hck
    · split at hck
      · rename_i hv
        exact Or.inl hv
      · right
        have hfe := Option.some.inj hck
        intro kv hkv
        exact List.filter_eq_self.mp hfe kv hkv
  · intro hemp hv
    have hck : callKwargs func kwargs = none := by
      simp only [callKwargs, h, hemp, hv]
      rfl
    conv_lhs => rw [cws_run]
    rw [hck]

/-- Witness for C4: a method accepting only `model` with no wildcard
skips (without calling) a candidate none of whose keys it accepts. -/
theorem call_with_signature_acceptance_witness :
    cws_run ⟨some ⟨["model"], false⟩, fun _ => .ok .vNone⟩
        [("messages", [("messages", .vStr "x")])] =
      cws_run ⟨some ⟨["model"], false⟩, fun _ => .ok .vNone⟩ [] :=
  (call_with_signature_acceptance ⟨some ⟨["model"], false⟩, fun _ => .ok .vNone⟩
      ⟨["model"], false⟩ rfl "messages" [("messages", .vStr "x")] []).2 (by decide) rfl

/-- C6: during shape negotiation, only a signature-mismatch (`TypeError`)
makes the loop move on to the next payload candidate; any other
exception aborts the remaining candidates immediately — the aborted run
made only that one call — and propagates out of `_call_with_signature`;
at the retry loop, any error from an attempt (this one included)
consumes one attempt of the retry budget, with its backoff sleep, before
the next attempt runs. -/
theorem shape_negotiation_error_policy (func : Func) (name : String)
    (kwargs ck : Payload) (rest : List (String × Payload))
    (h : callKwargs func kwargs = some ck) :
    (∀ msg, func.behavior ck = .error (.typeError msg) →
      cws_run func ((name, kwargs) :: rest) =
        (ck :: (cws_run func rest).1, (cws_run func rest).2))
  ∧ (∀ e, func.behavior ck = .error e → (∀ msg, e ≠ .typeError msg) →
      cws_run func ((name, kwargs) :: rest) = ([ck], .error e))
  ∧ (∀ env q m tok temp retries backoff attempt e c, attempt < retries →
      attemptOnce env q m tok temp = (.error e, c) →
      askLoop env q m tok temp retries backoff attempt =
        ⟨(askLoop env q m tok temp retries backoff (attempt + 1)).result,
         c + (askLoop env q m tok temp retries backoff (attempt + 1)).calls,
         backoff * 2 ^ attempt ::
           (askLoop env q m tok temp retries backoff (attempt + 1)).sleeps,
         1 + (askLoop env q m tok temp retries backoff (attempt + 1)).attempts⟩) := by
  refine ⟨fun msg hb => ?_, fun e hb hne => ?_, ?_⟩
  · conv_lhs => rw [cws_run]
    rw [h]
    simp only []
    rw [hb]
  · conv_lhs => rw [cws_run]
    rw [h]
    simp only []
    cases e with
    | typeError msg => exact absurd rfl (hne msg)
    | runtimeError msg => rw [hb]
    | otherError msg => rw [hb]
    | generationFailed n e2 => rw [hb]
  · intro env q m tok temp retries backoff attempt e c hlt hatt
    rw [askLoop, hatt]
    simp only []
    rw [dif_pos hlt]

/-- Witness for C6: a non-`TypeError` from the first candidate aborts the
negotiation after that single call and propagates the error. -/
theorem shape_negotiation_error_policy_witness :
    cws_run ⟨none, fun _ => .error (.otherError "net down")⟩
        [("messages", [("x", .vNone)]), ("contents", [("y", .vNone)])] =
      ([[("x", .vNone)]], .error (.otherError "net down")) :=
  (shape_negotiation_error_policy ⟨none, fun _ => .error (.otherError "net down")⟩
      "messages" [("x", .vNone)] [("x", .vNone)] [("contents", [("y", .vNone)])] rfl).2.1
    (.otherError "net down") rfl (fun msg h => by cases h)

/-- C5 as stated is false: the augmentation step does not add a
token-limit key AND a temperature key to each candidate, and it does not
double the candidate set — each augmented variant carries exactly one
extra key (the very first one has a token alias but no temperature
alias), and the 4 base candidates become 20 augmented ones, not 8. -/
theorem augmentation_not_doubling_cex :
    (augmentedVariants (payloadVariants "q" "gemini-2.5-flash") 512 (1/5)).length = 20 ∧
    2 * (payloadVariants "q" "gemini-2.5-flash").length = 8 ∧
    ((augmentedVariants (payloadVariants "q" "gemini-2.5-flash") 512 (1/5)).head?.map
      (fun nv => ((nv.2.lookup "max_output_tokens").isSome,
                  (nv.2.lookup "temperature").isSome,
                  (nv.2.lookup "temp").isSome))) = some (true, false, false) := by
  refine ⟨rfl, rfl, rfl⟩

/-- C5 (amended): when every base payload candidate fails with a
signature-mismatch error, the invoker re-attempts with the augmented
candidate list before giving up for that attempt; the augmented list
holds, for each of the 4 base candidates and each of the 5 aliases
`max_output_tokens`, `max_tokens`, `max_tokens_to_sample`,
`temperature`, `temp`, one copy of the base payload extended by that
single key (quintupling the candidate set, each variant with exactly one
extra key); in particular the `contents` payload augmented with
`max_output_tokens` is among the candidates, so a provider stub that
succeeds only once `max_output_tokens` is added to `contents` is found
and used. -/
theorem augmented_negotiation (c : Client) (models : String → Option Func) (func : Func)
    (hasOld : Bool) (oldC : Option OldClient) (q m : String) (tok : Int) (temp : ℚ)
    (msg : String)
    (hchat : c.chatCreate = none) (hmodels : c.models = some models)
    (hfind : findFunc c models = some func)
    (hbase : (cws_run func (payloadVariants q m)).2 = .error (.typeError msg)) :
    (augmentedVariants (payloadVariants q m) tok temp).length =
        5 * (payloadVariants q m).length
  ∧ ("contents+max_output_tokens",
      [("contents", .vList [.vStr q]), ("model", .vStr m), ("max_output_tokens", .vInt tok)])
        ∈ augmentedVariants (payloadVariants q m) tok temp
  ∧ (∀ nv ∈ augmentedVariants (payloadVariants q m) tok temp, nv.2.length = 3)
  ∧ attemptOnce ⟨true, some c, hasOld, oldC⟩ q m tok temp =
      ((cws_run func (augmentedVariants (payloadVariants q m) tok temp)).2.bind extract_text,
       (cws_run func (payloadVariants q m)).1.length +
         (cws_run func (augmentedVariants (payloadVariants q m) tok temp)).1.length) := by
  refine ⟨rfl, ?_, ?_, ?_⟩
  · simp [augmentedVariants, payloadVariants, dictSet, tokenParamNames, tempParamNames]
  · simp [augmentedVariants, payloadVariants, dictSet, tokenParamNames, tempParamNames]
  · unfold attemptOnce
    simp only []
    rw [hchat]
    simp only []
    rw [hmodels]
    simp only []
    rw [hfind]
    simp only []
    rw [hbase]
    simp only []
    rcases hr2 : (cws_run func (augmentedVariants (payloadVariants q m) tok temp)).2
      with e | resp
    · rfl
    · rfl

/-- Witness for C5 (amended): against the stub that succeeds only once
`max_output_tokens` is added to `contents`, one attempt makes the 4 base
calls and 6 augmented calls and returns the stub's text. -/
theorem augmented_negotiation_witness :
    attemptOnce ⟨true, some ⟨none, some stubTokenModels, fun _ => none⟩, false, none⟩
      "q" "m" 512 (1/5) = (.ok "ok!", 10) := by
  have h := (augmented_negotiation ⟨none, some stubTokenModels, fun _ => none⟩
      stubTokenModels stubTokenFunc false none "q" "m" 512 (1/5)
      "All payload variants failed." rfl rfl rfl rfl).2.2.2
  rw [h]
  decide

/-!  ## Claim theorems: the HTTP endpoint  -/

/-- C7: `POST /ask` — a question blank after trimming yields 400 with no
provider invocation; an invoker failure (the code catches every
exception, so in particular `GenerationFailed` and a
provider-unavailable error) yields 502; otherwise the response is
`{answer: <invoker result>, source: "gemini"}`. -/
theorem ask_endpoint_contract (env : Env) (hasSave : Bool)
    (save : String → String → Except PyErr Int) (question : String) :
    ((pyTrim question).data.isEmpty = true →
      askEndpoint env hasSave save question =
        ⟨.httpError 400 "Question is required", 0, none⟩)
  ∧ ((pyTrim question).data.isEmpty = false →
      ∀ e, (ask_gemini_sync env (pyTrim question)).result = .error e →
        (askEndpoint env hasSave save question).response = .httpError 502 "AI service error")
  ∧ ((pyTrim question).data.isEmpty = false →
      ∀ a, (ask_gemini_sync env (pyTrim question)).result = .ok a →
        (askEndpoint env hasSave save question).response = .ok a "gemini") := by
  refine ⟨fun h => ?_, fun h e he => ?_, fun h a ha => ?_⟩
  · unfold askEndpoint
    simp only []
    rw [h]
    rfl
  · unfold askEndpoint
    simp only []
    rw [h]
    simp only [Bool.false_eq_true, if_false]
    rw [he]
  · unfold askEndpoint
    simp only []
    rw [h]
    simp only [Bool.false_eq_true, if_false]
    rw [ha]

/-- Witness for C7: a whitespace question gets 400 with zero provider
calls; with no SDK available, "hi" gets 502; with a chat-capable stub
answering "hello", the response carries the answer and source
"gemini". -/
theorem ask_endpoint_contract_witness :
    askEndpoint ⟨false, none, false, none⟩ false (fun _ _ => .ok 0) "  " =
      ⟨.httpError 400 "Question is required", 0, none⟩ ∧
    (askEndpoint ⟨false, none, false, none⟩ false (fun _ _ => .ok 0) "hi").response =
      .httpError 502 "AI service error" ∧
    (askEndpoint ⟨true, some ⟨some (fun _ => .ok (.vObj "R" [("text", .vStr "hello")])),
        none, fun _ => none⟩, false, none⟩ false (fun _ _ => .ok 0) "hi").response =
      .ok "hello" "gemini" := by
  refine ⟨(ask_endpoint_contract _ _ _ _).1 (by decide),
          (ask_endpoint_contract _ _ _ _).2.1 (by decide)
            (.generationFailed 3 (.runtimeError "No compatible Google GenAI SDK available")) ?_,
          (ask_endpoint_contract _ _ _ _).2.2 (by decide) "hello"
            (by rw [ask_gemini_sync_first_ok _ _ DEFAULT_MODEL 512 (1/5) 2 1 "hello" 1
                      (by decide) (by decide)])⟩
  have h := askLoop_all_fail ⟨false, none, false, none⟩ "hi" DEFAULT_MODEL 512 (1/5) 2 1
      (.runtimeError "No compatible Google GenAI SDK available") 0 rfl 2 0 rfl
  show (askLoop ⟨false, none, false, none⟩ "hi" DEFAULT_MODEL 512 (1/5) 2 1 0).result = _
  rw [h]

/-- C8: when the invoker succeeded, a failure of the storage save is
swallowed: the save is attempted and fails, yet `POST /ask` still
returns its success response with that answer. -/
theorem ask_endpoint_save_swallowed (env : Env)
    (save : String → String → Except PyErr Int) (question a : String) (e : PyErr)
    (hq : (pyTrim question).data.isEmpty = false)
    (hok : (ask_gemini_sync env (pyTrim question)).result = .ok a)
    (hsave : save (pyTrim question) a = .error e) :
    askEndpoint env true save question =
      ⟨.ok a "gemini", (ask_gemini_sync env (pyTrim question)).calls, some (.error e)⟩ := by
  unfold askEndpoint
  simp only []
  rw [hq]
  simp only [Bool.false_eq_true, if_false]
  rw [hok]
  simp only [if_true]
  rw [hsave]

/-- Witness for C8: a chat stub answers "hello", the save raises, and
the endpoint still returns the answer. -/
theorem ask_endpoint_save_swallowed_witness :
    askEndpoint ⟨true, some ⟨some (fun _ => .ok (.vObj "R" [("text", .vStr "hello")])),
        none, fun _ => none⟩, false, none⟩ true (fun _ _ => .error (.otherError "db down")) "hi" =
      ⟨.ok "hello" "gemini", 1, some (.error (.otherError "db down"))⟩ := by
  have hr := ask_gemini_sync_first_ok
      ⟨true, some ⟨some (fun _ => .ok (.vObj "R" [("text", .vStr "hello")])),
        none, fun _ => none⟩, false, none⟩
      (pyTrim "hi") DEFAULT_MODEL 512 (1/5) 2 1 "hello" 1 (by decide) (by decide)
  have h := ask_endpoint_save_swallowed
      ⟨true, some ⟨some (fun _ => .ok (.vObj "R" [("text", .vStr "hello")])),
        none, fun _ => none⟩, false, none⟩
      (fun _ _ => .error (.otherError "db down")) "hi" "hello" (.otherError "db down")
      (by decide) (by rw [hr]) rfl
  rw [hr] at h
  exact h

/-!  ## Claim theorems: capability discovery  -/

/-- C9 as stated is false: when neither provider client can be
constructed, the module raises `ImportError` at import time — there is
no invoker left to call — and in the defensive in-call state with both
capability flags down a non-blank call does not fail immediately with a
ProviderUnavailable-style error: it runs the full retry loop (3
attempts, sleeping 1s then 2s) and fails with the generic
retry-exhaustion error wrapping the "No compatible Google GenAI SDK
available" cause (though indeed without contacting any provider). -/
theorem provider_unavailable_cex :
    moduleInit none none = .importError ∧
    ask_gemini_sync ⟨false, none, false, none⟩ "hi" DEFAULT_MODEL 512 (1/5) 2 1 =
      ⟨.error (.generationFailed 3 (.runtimeError "No compatible Google GenAI SDK available")),
       0, [1, 2], 3⟩ := by
  constructor
  · rfl
  · have h := askLoop_all_fail ⟨false, none, false, none⟩ "hi" DEFAULT_MODEL 512 (1/5) 2 1
        (.runtimeError "No compatible Google GenAI SDK available") 0 rfl 2 0 rfl
    refine Eq.trans (b := askLoop ⟨false, none, false, none⟩ "hi" DEFAULT_MODEL 512 (1/5) 2 1 0)
        rfl (h.trans ?_)
    simp only [RunResult.mk.injEq]
    refine ⟨trivial, trivial, ?_, trivial⟩
    norm_num [List.range_succ]

/-- C9 (amended): capability discovery happens once at module import,
new-style client first, old-style only as fallback; when neither can be
constructed the import raises `ImportError` and no module state exists
(so the invoker cannot be called at all, rather than failing per call);
in the defensive in-call state with both capability flags down, a
non-blank call contacts no provider and exhausts the retry loop, failing
with the retry-exhaustion error wrapping the "No compatible Google GenAI
SDK available" `RuntimeError`. -/
theorem capability_discovery (newC : Option Client) (oldC : Option OldClient)
    (q model : String) (tok : Int) (temp : ℚ) (retries : Nat) (backoff : ℚ)
    (hq : (pyTrim q).data.isEmpty = false) :
    (∀ c, newC = some c → moduleInit newC oldC = .newSDK c)
  ∧ (newC = none → ∀ o, oldC = some o → moduleInit newC oldC = .oldSDK o)
  ∧ (newC = none → oldC = none →
      moduleInit newC oldC = .importError ∧ envOfInit (moduleInit newC oldC) = none)
  ∧ (ask_gemini_sync ⟨false, none, false, none⟩ q model tok temp retries backoff).calls = 0
  ∧ (ask_gemini_sync ⟨false, none, false, none⟩ q model tok temp retries backoff).result =
      .error (.generationFailed (retries + 1)
        (.runtimeError "No compatible Google GenAI SDK available"))
  ∧ (ask_gemini_sync ⟨false, none, false, none⟩ q model tok temp retries backoff).attempts =
      retries + 1 := by
  have hq0 : q.data.isEmpty = false := by
    cases hqe : q.data.isEmpty
    · rfl
    · rw [pyTrim_of_empty q hqe] at hq
      cases hq
  have hrun : ask_gemini_sync ⟨false, none, false, none⟩ q model tok temp retries backoff =
      askLoop ⟨false, none, false, none⟩ q model tok temp retries backoff 0 := by
    unfold ask_gemini_sync
    rw [hq0, hq]
    rfl
  have h := askLoop_all_fail ⟨false, none, false, none⟩ q model tok temp retries backoff
      (.runtimeError "No compatible Google GenAI SDK available") 0 rfl retries 0 (by omega)
  refine ⟨fun c hc => by rw [hc]; rfl,
          fun hn o ho => by rw [hn, ho]; rfl,
          fun hn ho => by rw [hn, ho]; exact ⟨rfl, rfl⟩, ?_, ?_, ?_⟩
  · rw [hrun, h]
    simp
  · rw [hrun, h]
  · rw [hrun, h]

/-- Witness for C9 (amended): at the concrete discovery outcomes and the
concrete question "hi" with default options. -/
theorem capability_discovery_witness :
    moduleInit (none : Option Client) (none : Option OldClient) = .importError ∧
    (ask_gemini_sync ⟨false, none, false, none⟩ "hi" DEFAULT_MODEL 512 (1/5) 2 1).result =
      .error (.generationFailed 3
        (.runtimeError "No compatible Google GenAI SDK available")) := by
  have h := capability_discovery none none "hi" DEFAULT_MODEL 512 (1/5) 2 1 (by decide)
  exact ⟨(h.2.2.1 rfl rfl).1, h.2.2.2.2.1⟩

end QnA
